import Mathlib

/-!
Verification of the `asyncobj` lifecycle helper (`helper.go`) against its
specification.  The Go code is shallowly embedded: every mutex-protected
critical section of the source becomes a pure Lean function on an explicit
`Helper` state record, Go's `error` becomes `Option String` (`none` = nil),
one-shot channels become `Bool` "closed" flags, and aborts through the
logger's `Panic` reporter or a failed interface type assertion become the
`GoResult.fatal` outcome.  The embedding is sequential: an operation that
waits on a channel proceeds only when the channel is already closed and
otherwise yields `GoResult.blocked`.  Concurrent histories are modelled by
the labelled step relation `Step`, in which each constructor is one locked
critical section of the source, and reachability `Reach` from a freshly
constructed helper.
-/

set_option autoImplicit false

namespace Asyncobj

/-- Go `error` values: `none` models `nil`, `some s` an error whose message is `s`. -/
abbrev GoErr := Option String

/-- `OnceShutdownHandler func(completionError error) error` from the source. -/
abbrev OnceShutdownHandler := GoErr → GoErr

/-- `OnceActivateCallback func() error` from the source. -/
abbrev OnceActivateCallback := Unit → GoErr

/-- The managed object `obj interface{}`: only its two optional capabilities are
relevant.  `handleOnceActivate = none` models an object that does not implement
`HandleOnceActivator`; likewise for `HandleOnceShutdowner`. -/
structure ManagedObj where
  handleOnceActivate : Option OnceActivateCallback
  handleOnceShutdown : Option OnceShutdownHandler

/-- `StateUnactivated` (iota value 0). -/
@[simp] def StateUnactivated : Nat := 0

/-- `StateActivating` (iota value 1). -/
@[simp] def StateActivating : Nat := 1

/-- `StateActivated` (iota value 2). -/
@[simp] def StateActivated : Nat := 2

/-- `StateShuttingDown` (iota value 3). -/
@[simp] def StateShuttingDown : Nat := 3

/-- `StateLocalShutdown` (iota value 4). -/
@[simp] def StateLocalShutdown : Nat := 4

/-- `StateShutDown` (iota value 5). -/
@[simp] def StateShutDown : Nat := 5

/-- The mutable state of a `Helper`, one field per Go field that the claims
touch.  The four one-shot channels are modelled by their "has been closed"
flags; `wg` is modelled by its counter. -/
structure Helper where
  obj : ManagedObj
  state : Nat
  shutdownHandler : Option OnceShutdownHandler
  shutdownDeferCount : Int
  isActivated : Bool
  isScheduledShutdown : Bool
  shutdownErr : GoErr
  activatingDoneClosed : Bool
  shutdownStartedClosed : Bool
  localShutdownDoneClosed : Bool
  shutdownDoneClosed : Bool
  wgCount : Int

/-- Outcome of running a piece of Go code in the sequential model: a normal
return, an abort (`lg.Panic` or a failed interface type assertion), or a wait
on a channel that no other thread of the sequential model will ever close. -/
inductive GoResult (α : Type) where
  | ok : α → GoResult α
  | fatal : String → GoResult α
  | blocked : GoResult α

/-- The record built by `NewHelperWithShutdownHandler` once its capability
check has passed. -/
def newHelperRecord (obj : ManagedObj) (shutdownHandler : Option OnceShutdownHandler) : Helper :=
  { obj := obj
    state := StateUnactivated
    shutdownHandler := shutdownHandler
    shutdownDeferCount := 0
    isActivated := false
    isScheduledShutdown := false
    shutdownErr := none
    activatingDoneClosed := false
    shutdownStartedClosed := false
    localShutdownDoneClosed := false
    shutdownDoneClosed := false
    wgCount := 0 }

/-- `NewHelperWithShutdownHandler`: if `shutdownHandler == nil` the constructor
performs `_ = obj.(HandleOnceShutdowner)`, which panics when the object lacks
the capability; otherwise it builds the fresh record. The logger argument is
irrelevant to the claims and omitted. -/
def NewHelperWithShutdownHandler (obj : ManagedObj)
    (shutdownHandler : Option OnceShutdownHandler) : GoResult Helper :=
  match shutdownHandler, obj.handleOnceShutdown with
  | none, none => .fatal "interface conversion: obj is not HandleOnceShutdowner"
  | _, _ => .ok (newHelperRecord obj shutdownHandler)

/-- `NewHelper`: delegates to `NewHelperWithShutdownHandler` with a nil handler. -/
def NewHelper (obj : ManagedObj) : GoResult Helper :=
  NewHelperWithShutdownHandler obj none

/-- `SetOnceShutdownHandler`: rejected once `h.state >= StateActivated`,
otherwise installs the callback (which may be nil). -/
def SetOnceShutdownHandler (h : Helper) (callback : Option OnceShutdownHandler) :
    Helper × GoErr :=
  if StateActivated ≤ h.state then
    (h, some "Cannot SetOnceShutdownHandler after activation")
  else
    ({ h with shutdownHandler := callback }, none)

/-- `GetAsyncObjState`. -/
def GetAsyncObjState (h : Helper) : Nat := h.state

/-- `DeferShutdown`: fails once `h.state >= StateShuttingDown`, otherwise
increments the deferral count. -/
def DeferShutdown (h : Helper) : Helper × GoErr :=
  if StateShuttingDown ≤ h.state then
    (h, some "Shutdown already started; cannot defer")
  else
    ({ h with shutdownDeferCount := h.shutdownDeferCount + 1 }, none)

/-- `IsActivated`. -/
def IsActivated (h : Helper) : Bool := h.isActivated

/-- `SetIsActivated`: no-op returning nil when already activated; error when
shutdown already initiated; otherwise latches the flag, moves to
`StateActivated` and closes `activatingDoneChan`. -/
def SetIsActivated (h : Helper) : Helper × GoErr :=
  if h.isActivated then
    (h, none)
  else if StateShuttingDown ≤ h.state then
    (h, some "Cannot activate; shutdown already initiated")
  else
    ({ h with
        isActivated := true
        state := StateActivated
        activatingDoneClosed := true }, none)

/-- `lockedEnterShuttingDownState`: move to `StateShuttingDown`, closing
`activatingDoneChan` when the old state was below `StateActivated`, and close
`shutdownStartedChan`. -/
def lockedEnterShuttingDownState (h : Helper) : Helper :=
  let h1 := { h with state := StateShuttingDown, shutdownStartedClosed := true }
  if h.state < StateActivated then { h1 with activatingDoneClosed := true } else h1

/-- `UndeferShutdown`: `lg.Panic` when the count is below 1; otherwise
decrement, and when the count reaches 0 with a shutdown scheduled and the
state still below `StateShuttingDown`, enter the shutting-down state.  The
`asyncDoStartedShutdown` goroutine spawned in that case is modelled by the
`driverLocalShutdown` / `driverFinishShutdown` steps of `Step`. -/
def UndeferShutdown (h : Helper) : GoResult Helper :=
  if h.shutdownDeferCount < 1 then
    .fatal "UndeferShutdown before DeferShutdown"
  else
    let h1 := { h with shutdownDeferCount := h.shutdownDeferCount - 1 }
    if h1.shutdownDeferCount = 0 ∧ h1.isScheduledShutdown ∧ h1.state < StateShuttingDown then
      .ok (lockedEnterShuttingDownState h1)
    else
      .ok h1

/-- `StartShutdown`: returns whether this call was the first to schedule
shutdown.  On the first call it stores the advisory error, latches the
scheduled flag, and enters the shutting-down state when the deferral count is
0 (again spawning the driver, modelled by the driver steps of `Step`).  A
first call finding `state >= StateShuttingDown` is the source's
`lg.Panic("shutdown started before scheduled")`. -/
def StartShutdown (h : Helper) (completionErr : GoErr) : GoResult (Helper × Bool) :=
  if h.isScheduledShutdown then
    .ok (h, false)
  else if StateShuttingDown ≤ h.state then
    .fatal "shutdown started before scheduled"
  else
    let h1 := { h with shutdownErr := completionErr, isScheduledShutdown := true }
    if h1.shutdownDeferCount = 0 then
      .ok (lockedEnterShuttingDownState h1, true)
    else
      .ok (h1, true)

/-- Hook resolution in `asyncDoStartedShutdown`: the explicit handler when
non-nil, else the managed object's `HandleOnceShutdowner` capability. -/
def resolvedShutdownHook (h : Helper) : Option OnceShutdownHandler :=
  match h.shutdownHandler with
  | some f => some f
  | none => h.obj.handleOnceShutdown

/-- The first locked section of the shutdown driver: record the hook's return
value as the terminal error, move to `StateLocalShutdown`, close
`localShutdownDoneChan`. -/
def lockedLocalShutdown (h : Helper) (e : GoErr) : Helper :=
  { h with
      shutdownErr := e
      state := StateLocalShutdown
      localShutdownDoneClosed := true }

/-- The final locked section of the shutdown driver, run after `h.wg.Wait()`
returns: move to `StateShutDown` and close `shutdownDoneChan`. -/
def lockedFinishShutdown (h : Helper) : Helper :=
  { h with state := StateShutDown, shutdownDoneClosed := true }

/-- `asyncDoStartedShutdown`, run to completion: invoke the resolved shutdown
hook on the current terminal error (a failed resolution is the failed type
assertion `h.obj.(HandleOnceShutdowner)`), then the two locked sections.  The
`h.wg.Wait()` between them has no state effect of its own; its blocking until
the wait-group drains is modelled by the `wgCount = 0` guard of the
`driverFinishShutdown` step of `Step`. -/
def asyncDoStartedShutdown (h : Helper) : GoResult Helper :=
  match resolvedShutdownHook h with
  | none => .fatal "interface conversion: obj is not HandleOnceShutdowner"
  | some hook => .ok (lockedFinishShutdown (lockedLocalShutdown h (hook h.shutdownErr)))

/-- `WaitShutdown`: read `h.shutdownErr` once `shutdownDoneChan` is closed. -/
def WaitShutdown (h : Helper) : GoResult GoErr :=
  if h.shutdownDoneClosed then .ok h.shutdownErr else .blocked

/-- `WaitLocalShutdown`: read `h.shutdownErr` once `localShutdownDoneChan` is closed. -/
def WaitLocalShutdown (h : Helper) : GoResult GoErr :=
  if h.localShutdownDoneClosed then .ok h.shutdownErr else .blocked

/-- `ShutdownWGAdd`: a returned error (not a logger fatal) when `delta <= 0`
or when `StateShutDown` has been entered; otherwise adds to the wait-group
counter.  Wrapped in `GoResult` so that "does not abort" is visible in the
result type. -/
def ShutdownWGAdd (h : Helper) (delta : Int) : GoResult (Helper × GoErr) :=
  if delta ≤ 0 then
    .ok (h, some "ShutdownWGAdd: delta must be > 0")
  else if StateShutDown ≤ h.state then
    .ok (h, some "Cannot add to ShutdownWG after StateShutdown")
  else
    .ok ({ h with wgCount := h.wgCount + delta }, none)

/-- `DoOnceActivate`, the sequential composition of its critical sections.
Other threads do not run in between, so the wait on `activatingDoneChan`
(resp. `shutdownDoneChan`) succeeds only when the channel is already closed.
The `asyncDoStartedShutdown` goroutine that an inner `StartShutdown` or
`UndeferShutdown` may spawn runs asynchronously and is modelled by the driver
steps of `Step`, not inlined here. -/
def DoOnceActivate (h : Helper) (onceActivateCallback : Option OnceActivateCallback)
    (waitOnFail : Bool) : GoResult (Helper × GoErr) :=
  if h.isActivated then
    .ok (h, none)
  else if h.state = StateActivating ∧ ¬h.activatingDoneClosed then
    .blocked
  else if h.isActivated then
    .ok (h, none)
  else if StateShuttingDown ≤ h.state then
    if waitOnFail then
      match WaitShutdown h with
      | .fatal s => .fatal s
      | .blocked => .blocked
      | .ok e =>
        .ok (h, if e = none then
                  some "Shutdown of object already started; cannot SetIsActivated"
                else e)
    else
      .ok (h, some "Shutdown of object already started; cannot SetIsActivated")
  else
    let h1 := { h with
        shutdownDeferCount := h.shutdownDeferCount + 1
        state := StateActivating }
    let hookRun : GoResult GoErr :=
      match onceActivateCallback with
      | some f => .ok (f ())
      | none =>
        match h1.obj.handleOnceActivate with
        | some g => .ok (g ())
        | none => .fatal "interface conversion: obj is not HandleOnceActivator"
    match hookRun with
    | .fatal s => .fatal s
    | .blocked => .blocked
    | .ok e0 =>
      let p := if e0 = none then SetIsActivated h1 else (h1, e0)
      let r3 : GoResult Helper :=
        if p.2 = none then .ok p.1
        else
          match StartShutdown p.1 p.2 with
          | .fatal s => .fatal s
          | .blocked => .blocked
          | .ok q => .ok q.1
      match r3 with
      | .fatal s => .fatal s
      | .blocked => .blocked
      | .ok h3 =>
        match UndeferShutdown h3 with
        | .fatal s => .fatal s
        | .blocked => .blocked
        | .ok h4 =>
          if p.2 ≠ none ∧ waitOnFail then
            match WaitShutdown h4 with
            | .fatal s => .fatal s
            | .blocked => .blocked
            | .ok _ => .ok (h4, p.2)
          else
            .ok (h4, p.2)

/-- Labels for the locked critical sections a running program can execute.
`doOnceActivateBegin` is the section of `DoOnceActivate` that increments the
deferral count and moves to `StateActivating`; the driver labels are the two
locked sections of the `asyncDoStartedShutdown` goroutine; `wgDone` is a
`Done()` call on the wait-group by a child goroutine or wait-group client. -/
inductive Op where
  | setIsActivated
  | deferShutdown
  | undeferShutdown
  | startShutdown (e : GoErr)
  | doOnceActivateBegin
  | setOnceShutdownHandler (f : Option OnceShutdownHandler)
  | driverLocalShutdown
  | driverFinishShutdown
  | shutdownWGAdd (d : Int)
  | wgDone

/-- One atomic (mutex-protected) step of a program using the helper.  Each
constructor is one critical section of the source; aborting outcomes
(`GoResult.fatal`) terminate the process and therefore yield no step.  The
`driverLocalShutdown` step can fire once `StateShuttingDown` has been entered
(which is when the driver goroutine is spawned); `driverFinishShutdown`
requires the wait-group to have drained, which is what `h.wg.Wait()` waits
for. -/
inductive Step : Op → Helper → Helper → Prop where
  | setIsActivated (h : Helper) :
      Step .setIsActivated h (SetIsActivated h).1
  | deferShutdown (h : Helper) :
      Step .deferShutdown h (DeferShutdown h).1
  | undeferShutdown (h h' : Helper) :
      UndeferShutdown h = .ok h' → Step .undeferShutdown h h'
  | startShutdown (h h' : Helper) (e : GoErr) (b : Bool) :
      StartShutdown h e = .ok (h', b) → Step (.startShutdown e) h h'
  | doOnceActivateBegin (h : Helper) :
      h.isActivated = false → h.state < StateShuttingDown →
      Step .doOnceActivateBegin h
        { h with
            shutdownDeferCount := h.shutdownDeferCount + 1
            state := StateActivating }
  | setOnceShutdownHandler (h : Helper) (f : Option OnceShutdownHandler) :
      Step (.setOnceShutdownHandler f) h (SetOnceShutdownHandler h f).1
  | driverLocalShutdown (h : Helper) (hook : OnceShutdownHandler) :
      h.state = StateShuttingDown → resolvedShutdownHook h = some hook →
      Step .driverLocalShutdown h (lockedLocalShutdown h (hook h.shutdownErr))
  | driverFinishShutdown (h : Helper) :
      h.state = StateLocalShutdown → h.wgCount = 0 →
      Step .driverFinishShutdown h (lockedFinishShutdown h)
  | shutdownWGAdd (h h' : Helper) (d : Int) (e : GoErr) :
      ShutdownWGAdd h d = .ok (h', e) → Step (.shutdownWGAdd d) h h'
  | wgDone (h : Helper) :
      0 < h.wgCount →
      Step .wgDone h { h with wgCount := h.wgCount - 1 }

/-- Helpers reachable by some program: a successful construction followed by
any sequence of steps. -/
inductive Reach : Helper → Prop where
  | init (obj : ManagedObj) (sh : Option OnceShutdownHandler) (h : Helper) :
      NewHelperWithShutdownHandler obj sh = .ok h → Reach h
  | step (op : Op) (h h' : Helper) : Reach h → Step op h h' → Reach h'

/-- Reflexive-transitive closure of `Step` (label forgotten). -/
inductive Steps : Helper → Helper → Prop where
  | refl (h : Helper) : Steps h h
  | tail (h h' h'' : Helper) (op : Op) : Steps h h' → Step op h' h'' → Steps h h''

/-- A labelled run: `Trace h ops h'` records the list of critical sections
executed between the two states. -/
inductive Trace : Helper → List Op → Helper → Prop where
  | nil (h : Helper) : Trace h [] h
  | cons (h h' h'' : Helper) (op : Op) (ops : List Op) :
      Step op h h' → Trace h' ops h'' → Trace h (op :: ops) h''

/-- The inductive invariant of reachable helper states. -/
def Inv (h : Helper) : Prop :=
  0 ≤ h.shutdownDeferCount ∧
  (h.state = StateActivated → h.isActivated = true) ∧
  (h.isActivated = true → StateActivated ≤ h.state) ∧
  (StateShuttingDown ≤ h.state → h.isScheduledShutdown = true) ∧
  (0 < h.shutdownDeferCount → h.state < StateShuttingDown) ∧
  h.state ≤ StateShutDown ∧
  0 ≤ h.wgCount

/-- True exactly on the `driverLocalShutdown` label (the critical section in
which the shutdown hook's result is recorded). -/
def isDriverLocal : Op → Bool
  | .driverLocalShutdown => true
  | _ => false

/-- The transition list asserted by the specification. -/
def claimedTransitions : List (Nat × Nat) :=
  [(0, 1), (0, 3), (1, 2), (1, 3), (2, 3), (3, 4), (4, 5)]

/-- The transition list the code actually obeys: the specification's list plus
0 → 2, produced by a direct `SetIsActivated` on a helper that never started
activating. -/
def amendedTransitions : List (Nat × Nat) :=
  [(0, 1), (0, 2), (0, 3), (1, 2), (1, 3), (2, 3), (3, 4), (4, 5)]

/-- A shutdown hook that returns the advisory error unchanged. -/
def demoHook : OnceShutdownHandler := fun e => e

/-- A managed object implementing both capabilities. -/
def demoObj : ManagedObj :=
  { handleOnceActivate := some (fun _ => none)
    handleOnceShutdown := some demoHook }

/-- A managed object implementing neither capability. -/
def demoObjNoCaps : ManagedObj :=
  { handleOnceActivate := none, handleOnceShutdown := none }

/-- A managed object implementing only the shutdown capability. -/
def demoObjOnlyShut : ManagedObj :=
  { handleOnceActivate := none, handleOnceShutdown := some demoHook }

/-- A freshly constructed helper over `demoObj` with a nil explicit handler. -/
def demoHelper : Helper := newHelperRecord demoObj none

/-- `demoHelper` after `StartShutdown (some "e1")`: the deferral count was 0,
so the helper entered `StateShuttingDown` inline. -/
def demoScheduled : Helper :=
  { obj := demoObj
    state := StateShuttingDown
    shutdownHandler := none
    shutdownDeferCount := 0
    isActivated := false
    isScheduledShutdown := true
    shutdownErr := some "e1"
    activatingDoneClosed := true
    shutdownStartedClosed := true
    localShutdownDoneClosed := false
    shutdownDoneClosed := false
    wgCount := 0 }

/-- `demoScheduled` after the first locked section of the shutdown driver. -/
def demoLocal : Helper :=
  { demoScheduled with state := StateLocalShutdown, localShutdownDoneClosed := true }

/-- `demoLocal` after the wait-group drained and the driver finished. -/
def demoDone : Helper :=
  { demoLocal with state := StateShutDown, shutdownDoneClosed := true }

/-- `demoHelper` after the `DoOnceActivate` critical section that begins
activation (deferral count incremented, state = `StateActivating`). -/
def demoActivating : Helper :=
  { demoHelper with shutdownDeferCount := 1, state := StateActivating }

@[simp] theorem enter_state (h : Helper) :
    (lockedEnterShuttingDownState h).state = StateShuttingDown := by
  simp only [lockedEnterShuttingDownState]
  split <;> rfl

@[simp] theorem enter_obj (h : Helper) :
    (lockedEnterShuttingDownState h).obj = h.obj := by
  simp only [lockedEnterShuttingDownState]
  split <;> rfl

@[simp] theorem enter_shutdownHandler (h : Helper) :
    (lockedEnterShuttingDownState h).shutdownHandler = h.shutdownHandler := by
  simp only [lockedEnterShuttingDownState]
  split <;> rfl

@[simp] theorem enter_deferCount (h : Helper) :
    (lockedEnterShuttingDownState h).shutdownDeferCount = h.shutdownDeferCount := by
  simp only [lockedEnterShuttingDownState]
  split <;> rfl

@[simp] theorem enter_isActivated (h : Helper) :
    (lockedEnterShuttingDownState h).isActivated = h.isActivated := by
  simp only [lockedEnterShuttingDownState]
  split <;> rfl

@[simp] theorem enter_isScheduled (h : Helper) :
    (lockedEnterShuttingDownState h).isScheduledShutdown = h.isScheduledShutdown := by
  simp only [lockedEnterShuttingDownState]
  split <;> rfl

@[simp] theorem enter_shutdownErr (h : Helper) :
    (lockedEnterShuttingDownState h).shutdownErr = h.shutdownErr := by
  simp only [lockedEnterShuttingDownState]
  split <;> rfl

@[simp] theorem enter_activatingDone (h : Helper) :
    (lockedEnterShuttingDownState h).activatingDoneClosed =
      (if h.state < StateActivated then true else h.activatingDoneClosed) := by
  simp only [lockedEnterShuttingDownState]
  split <;> simp_all

@[simp] theorem enter_started (h : Helper) :
    (lockedEnterShuttingDownState h).shutdownStartedClosed = true := by
  simp only [lockedEnterShuttingDownState]
  split <;> rfl

@[simp] theorem enter_localDone (h : Helper) :
    (lockedEnterShuttingDownState h).localShutdownDoneClosed = h.localShutdownDoneClosed := by
  simp only [lockedEnterShuttingDownState]
  split <;> rfl

@[simp] theorem enter_doneClosed (h : Helper) :
    (lockedEnterShuttingDownState h).shutdownDoneClosed = h.shutdownDoneClosed := by
  simp only [lockedEnterShuttingDownState]
  split <;> rfl

@[simp] theorem enter_wgCount (h : Helper) :
    (lockedEnterShuttingDownState h).wgCount = h.wgCount := by
  simp only [lockedEnterShuttingDownState]
  split <;> rfl


theorem inv_newHelperRecord (obj : ManagedObj) (sh : Option OnceShutdownHandler) :
    Inv (newHelperRecord obj sh) := by
  simp [Inv, newHelperRecord, StateActivated, StateShuttingDown, StateShutDown,
    StateUnactivated]

theorem inv_step {op : Op} {h h' : Helper} (hinv : Inv h) (hs : Step op h h') : Inv h' := by
  obtain ⟨i1, i2, i3, i4, i5, i6, i7⟩ := hinv
  cases hs with
  | setIsActivated h =>
    simp only [SetIsActivated]
    split
    · exact ⟨i1, i2, i3, i4, i5, i6, i7⟩
    split
    · exact ⟨i1, i2, i3, i4, i5, i6, i7⟩
    refine ⟨?_, ?_, ?_, ?_, ?_, ?_, ?_⟩ <;> intros <;> simp_all <;> omega
  | deferShutdown h =>
    simp only [DeferShutdown]
    split
    · exact ⟨i1, i2, i3, i4, i5, i6, i7⟩
    refine ⟨?_, ?_, ?_, ?_, ?_, ?_, ?_⟩ <;> intros <;> simp_all <;> omega
  | undeferShutdown h h' heq =>
    simp only [UndeferShutdown] at heq
    split at heq
    · simp at heq
    split at heq <;> simp only [GoResult.ok.injEq] at heq <;> subst heq <;>
      refine ⟨?_, ?_, ?_, ?_, ?_, ?_, ?_⟩ <;> intros <;> simp_all <;> omega
  | startShutdown h h' e b heq =>
    simp only [StartShutdown] at heq
    split at heq
    · simp only [GoResult.ok.injEq, Prod.mk.injEq] at heq
      obtain ⟨h1, _⟩ := heq
      subst h1
      exact ⟨i1, i2, i3, i4, i5, i6, i7⟩
    split at heq
    · simp at heq
    split at heq <;> simp only [GoResult.ok.injEq, Prod.mk.injEq] at heq <;>
      obtain ⟨h1, _⟩ := heq <;> subst h1 <;>
      refine ⟨?_, ?_, ?_, ?_, ?_, ?_, ?_⟩ <;> intros <;> simp_all <;> omega
  | doOnceActivateBegin h hna hlt =>
    have h2 : h.state ≠ StateActivated := fun hc => by simp [i2 hc] at hna
    refine ⟨?_, ?_, ?_, ?_, ?_, ?_, ?_⟩ <;> intros <;> simp_all <;> omega
  | setOnceShutdownHandler h f =>
    simp only [SetOnceShutdownHandler]
    split
    · exact ⟨i1, i2, i3, i4, i5, i6, i7⟩
    exact ⟨i1, i2, i3, i4, i5, i6, i7⟩
  | driverLocalShutdown h hook hst hres =>
    refine ⟨?_, ?_, ?_, ?_, ?_, ?_, ?_⟩ <;> intros <;> simp_all [lockedLocalShutdown] <;> omega
  | driverFinishShutdown h hst hwg =>
    refine ⟨?_, ?_, ?_, ?_, ?_, ?_, ?_⟩ <;> intros <;> simp_all [lockedFinishShutdown] <;> omega
  | shutdownWGAdd h h' d e heq =>
    simp only [ShutdownWGAdd] at heq
    split at heq
    · simp only [GoResult.ok.injEq, Prod.mk.injEq] at heq
      obtain ⟨h1, _⟩ := heq
      subst h1
      exact ⟨i1, i2, i3, i4, i5, i6, i7⟩
    split at heq <;> simp only [GoResult.ok.injEq, Prod.mk.injEq] at heq <;>
      obtain ⟨h1, _⟩ := heq <;> subst h1
    · exact ⟨i1, i2, i3, i4, i5, i6, i7⟩
    refine ⟨?_, ?_, ?_, ?_, ?_, ?_, ?_⟩ <;> intros <;> simp_all <;> omega
  | wgDone h hwg =>
    refine ⟨?_, ?_, ?_, ?_, ?_, ?_, ?_⟩ <;> intros <;> simp_all <;> omega

theorem inv_reach {h : Helper} (hr : Reach h) : Inv h := by
  induction hr with
  | init obj sh h heq =>
    have hh : h = newHelperRecord obj sh := by
      simp only [NewHelperWithShutdownHandler] at heq
      split at heq
      · simp at heq
      · simp only [GoResult.ok.injEq] at heq
        exact heq.symm
    subst hh
    exact inv_newHelperRecord obj sh
  | step op h h' hr hs ih => exact inv_step ih hs

theorem step_state_mono {op : Op} {h h' : Helper} (hinv : Inv h) (hs : Step op h h') :
    h.state ≤ h'.state := by
  obtain ⟨i1, i2, i3, i4, i5, i6, i7⟩ := hinv
  cases hs with
  | setIsActivated h =>
    simp only [SetIsActivated]
    split
    · exact le_refl _
    split
    · exact le_refl _
    rename_i hna hlt
    simp_all
    omega
  | deferShutdown h =>
    simp only [DeferShutdown]
    split <;> simp
  | undeferShutdown h h' heq =>
    simp only [UndeferShutdown] at heq
    split at heq
    · simp at heq
    split at heq <;> simp only [GoResult.ok.injEq] at heq <;> subst heq
    · rename_i hcond
      simp_all
      omega
    · simp
  | startShutdown h h' e b heq =>
    simp only [StartShutdown] at heq
    split at heq
    · simp only [GoResult.ok.injEq, Prod.mk.injEq] at heq
      obtain ⟨h1, _⟩ := heq
      subst h1
      exact le_refl _
    split at heq
    · simp at heq
    split at heq <;> simp only [GoResult.ok.injEq, Prod.mk.injEq] at heq <;>
        obtain ⟨h1, _⟩ := heq <;> subst h1
    · rename_i hns hlt _
      simp_all
      omega
    · simp
  | doOnceActivateBegin h hna hlt =>
    have h2 : h.state ≠ StateActivated := fun hc => by simp [i2 hc] at hna
    simp_all
    omega
  | setOnceShutdownHandler h f =>
    simp only [SetOnceShutdownHandler]
    split <;> simp
  | driverLocalShutdown h hook hst hres =>
    simp_all [lockedLocalShutdown]
  | driverFinishShutdown h hst hwg =>
    simp_all [lockedFinishShutdown]
  | shutdownWGAdd h h' d e heq =>
    simp only [ShutdownWGAdd] at heq
    split at heq
    · simp only [GoResult.ok.injEq, Prod.mk.injEq] at heq
      obtain ⟨h1, _⟩ := heq
      subst h1
      exact le_refl _
    split at heq <;> simp only [GoResult.ok.injEq, Prod.mk.injEq] at heq <;>
        obtain ⟨h1, _⟩ := heq <;> subst h1 <;> simp
  | wgDone h hwg => simp

theorem reach_steps {h h' : Helper} (hs : Steps h h') : Reach h → Reach h' := by
  induction hs with
  | refl => exact id
  | tail b c op hab hbc ih => exact fun hr => Reach.step op b c (ih hr) hbc

theorem steps_state_mono {h h' : Helper} (hs : Steps h h') : Reach h → h.state ≤ h'.state := by
  induction hs with
  | refl => exact fun _ => le_refl _
  | tail b c op hab hbc ih =>
    exact fun hr => le_trans (ih hr) (step_state_mono (inv_reach (reach_steps hab hr)) hbc)

theorem trace_state_mono {h h' : Helper} {ops : List Op} (ht : Trace h ops h') :
    Inv h → h.state ≤ h'.state := by
  induction ht with
  | nil h => exact fun _ => le_refl _
  | cons a b c op ops hab hbc ih =>
    exact fun hi => le_trans (step_state_mono hi hab) (ih (inv_step hi hab))

theorem driver_local_state {h h' : Helper} (hs : Step .driverLocalShutdown h h') :
    h.state = StateShuttingDown := by
  cases hs
  assumption

theorem driver_finish_wg {h h' : Helper} (hs : Step .driverFinishShutdown h h') :
    h.wgCount = 0 := by
  cases hs
  assumption

theorem trace_no_driver_past {h h' : Helper} {ops : List Op} (ht : Trace h ops h') :
    Inv h → StateLocalShutdown ≤ h.state →
    List.countP (fun op => isDriverLocal op) ops = 0 := by
  induction ht with
  | nil h => exact fun _ _ => rfl
  | cons a b c op ops hab hbc ih =>
    intro hi hst
    have hb : StateLocalShutdown ≤ b.state := le_trans hst (step_state_mono hi hab)
    have h0 := ih (inv_step hi hab) hb
    have hnl : isDriverLocal op = false := by
      cases hab <;> first | rfl | simp_all
    simp [List.countP_cons, hnl, h0]

theorem trace_driver_once {h h' : Helper} {ops : List Op} (ht : Trace h ops h') :
    Inv h → List.countP (fun op => isDriverLocal op) ops ≤ 1 := by
  induction ht with
  | nil h => exact fun _ => by simp
  | cons a b c op ops hab hbc ih =>
    intro hi
    by_cases hop : isDriverLocal op = true
    · have hb : StateLocalShutdown ≤ b.state := by
        cases hab <;> simp_all [isDriverLocal, lockedLocalShutdown]
      have h0 := trace_no_driver_past hbc (inv_step hi hab) hb
      simp [List.countP_cons, hop, h0]
    · have ht1 := ih (inv_step hi hab)
      simp only [Bool.not_eq_true] at hop
      simpa [List.countP_cons, hop] using ht1

theorem reach_demoHelper : Reach demoHelper :=
  Reach.init demoObj none demoHelper rfl

theorem startShutdown_demoHelper :
    StartShutdown demoHelper (some "e1") = .ok (demoScheduled, true) := rfl

theorem demoStep1 : Step (.startShutdown (some "e1")) demoHelper demoScheduled :=
  Step.startShutdown demoHelper demoScheduled (some "e1") true startShutdown_demoHelper

theorem demoStep2 : Step .driverLocalShutdown demoScheduled demoLocal :=
  Step.driverLocalShutdown demoScheduled demoHook rfl rfl

theorem demoStep3 : Step .driverFinishShutdown demoLocal demoDone :=
  Step.driverFinishShutdown demoLocal rfl rfl

theorem demoStep4 : Step .doOnceActivateBegin demoHelper demoActivating :=
  Step.doOnceActivateBegin demoHelper rfl (by decide)

theorem reach_demoScheduled : Reach demoScheduled :=
  Reach.step _ demoHelper demoScheduled reach_demoHelper demoStep1

theorem reach_demoLocal : Reach demoLocal :=
  Reach.step _ demoScheduled demoLocal reach_demoScheduled demoStep2

theorem reach_demoDone : Reach demoDone :=
  Reach.step _ demoLocal demoDone reach_demoLocal demoStep3

theorem reach_demoActivating : Reach demoActivating :=
  Reach.step _ demoHelper demoActivating reach_demoHelper demoStep4

theorem steps_demo : Steps demoHelper demoDone :=
  Steps.tail _ _ _ _
    (Steps.tail _ _ _ _
      (Steps.tail _ _ _ _ (Steps.refl demoHelper) demoStep1) demoStep2) demoStep3

/-- C4 counterexample: `ShutdownWGAdd` with `delta = 0` does not signal a
fatal logger event; it returns an ordinary error value (`GoResult.ok` with a
non-nil error), so the claim that each misuse case ends in a logger fatal is
false for `ShutdownWGAdd`. -/
theorem c4_counterexample :
    UndeferShutdown demoHelper = .fatal "UndeferShutdown before DeferShutdown" ∧
    ShutdownWGAdd demoHelper 0 =
      .ok (demoHelper, some "ShutdownWGAdd: delta must be > 0") :=
  ⟨rfl, rfl⟩

/-- C4 (amended): `UndeferShutdown` at deferral count below 1 signals a fatal
logger event; `ShutdownWGAdd` with `delta ≤ 0` returns an error (without
signalling a fatal logger event and without changing the helper). -/
theorem c4_amended (h : Helper) (d : Int) :
    (h.shutdownDeferCount < 1 →
        UndeferShutdown h = .fatal "UndeferShutdown before DeferShutdown") ∧
    (d ≤ 0 → ShutdownWGAdd h d = .ok (h, some "ShutdownWGAdd: delta must be > 0")) := by
  constructor
  · intro hc
    simp [UndeferShutdown, hc]
  · intro hd
    simp [ShutdownWGAdd, hd]

/-- C4 witness: the amended claim evaluated on `demoScheduled` (deferral
count 0) and `delta = -1`. -/
theorem c4_witness :
    UndeferShutdown demoScheduled = .fatal "UndeferShutdown before DeferShutdown" ∧
    ShutdownWGAdd demoScheduled (-1) =
      .ok (demoScheduled, some "ShutdownWGAdd: delta must be > 0") :=
  ⟨(c4_amended demoScheduled (-1)).1 (by decide),
   (c4_amended demoScheduled (-1)).2 (by decide)⟩

/-- C7 counterexample: on the reachable helper `demoActivating`, whose state
is `StateActivating`, `SetOnceShutdownHandler` succeeds (returns nil) and
replaces the installed hook, contradicting the claim that a call made when
state is activating or higher returns an error and leaves the hook
unchanged. -/
theorem c7_counterexample :
    Reach demoActivating ∧
    demoActivating.state = StateActivating ∧
    SetOnceShutdownHandler demoActivating (some demoHook) =
      ({ demoActivating with shutdownHandler := some demoHook }, none) :=
  ⟨reach_demoActivating, rfl, rfl⟩

/-- C7 (amended): the shutdown hook is settable until activation completes:
`SetOnceShutdownHandler` returns an error and leaves the hook unchanged
exactly when `state ≥ StateActivated`; below that (including
`StateActivating`) it succeeds and installs the callback. -/
theorem c7_amended (h : Helper) (f : Option OnceShutdownHandler) :
    (StateActivated ≤ h.state →
        SetOnceShutdownHandler h f =
          (h, some "Cannot SetOnceShutdownHandler after activation")) ∧
    (h.state < StateActivated →
        SetOnceShutdownHandler h f = ({ h with shutdownHandler := f }, none)) := by
  constructor
  · intro hc
    simp only [SetOnceShutdownHandler]
    rw [if_pos hc]
  · intro hc
    simp only [SetOnceShutdownHandler]
    rw [if_neg (Nat.not_le.mpr hc)]

/-- C7 witness: the amended claim evaluated on `demoDone` (state ≥ activated,
so the setter fails) and on `demoHelper` (state 0, so the setter succeeds). -/
theorem c7_witness :
    SetOnceShutdownHandler demoDone (some demoHook) =
      (demoDone, some "Cannot SetOnceShutdownHandler after activation") ∧
    SetOnceShutdownHandler demoHelper (some demoHook) =
      ({ demoHelper with shutdownHandler := some demoHook }, none) :=
  ⟨(c7_amended demoDone (some demoHook)).1 (by decide),
   (c7_amended demoHelper (some demoHook)).2 (by decide)⟩

/-- C8: along every run of the helper (any reachable start state and any
sequence of steps) the observed state value never decreases. -/
theorem c8_state_monotone (h h' : Helper) (hr : Reach h) (hs : Steps h h') :
    h.state ≤ h'.state :=
  steps_state_mono hs hr

/-- C8 witness: the monotonicity theorem evaluated along the concrete run
from construction to full shutdown. -/
theorem c8_witness : demoHelper.state ≤ demoDone.state :=
  c8_state_monotone demoHelper demoDone reach_demoHelper steps_demo

/-- C9: at every reachable state the deferral count is non-negative and, when
positive, the state is below `StateShuttingDown`; once state is at least
`StateShuttingDown`, `DeferShutdown` returns an error without changing the
helper, and no step increases the deferral count. -/
theorem c9_deferral_invariant (h h' : Helper) (op : Op) (hr : Reach h) :
    0 ≤ h.shutdownDeferCount ∧
    (0 < h.shutdownDeferCount → h.state < StateShuttingDown) ∧
    (StateShuttingDown ≤ h.state →
        DeferShutdown h = (h, some "Shutdown already started; cannot defer")) ∧
    (Step op h h' → StateShuttingDown ≤ h.state →
        h'.shutdownDeferCount ≤ h.shutdownDeferCount) := by
  obtain ⟨i1, i2, i3, i4, i5, i6, i7⟩ := inv_reach hr
  refine ⟨i1, i5, ?_, ?_⟩
  · intro hc
    simp only [StateShuttingDown] at hc
    simp [DeferShutdown, hc]
  · intro hs hge
    simp only [StateShuttingDown] at hge
    cases hs with
    | setIsActivated h =>
      by_cases ha : h.isActivated = true
      · simp [SetIsActivated, ha]
      · simp [SetIsActivated, ha, hge]
    | deferShutdown h =>
      simp [DeferShutdown, hge]
    | undeferShutdown h h' heq =>
      simp only [UndeferShutdown] at heq
      split at heq
      · simp at heq
      split at heq <;> simp only [GoResult.ok.injEq] at heq <;> subst heq <;> simp <;> omega
    | startShutdown h h' e b heq =>
      simp only [StartShutdown] at heq
      split at heq
      · simp only [GoResult.ok.injEq, Prod.mk.injEq] at heq
        obtain ⟨h1, _⟩ := heq
        subst h1
        exact le_refl _
      · rename_i hns
        exact absurd (i4 hge) (by simpa using hns)
    | doOnceActivateBegin h hna hlt =>
      exact absurd hlt (by simp only [StateShuttingDown]; omega)
    | setOnceShutdownHandler h f =>
      simp only [SetOnceShutdownHandler]
      split
      · exact le_refl _
      exact le_refl _
    | driverLocalShutdown h hook hst hres =>
      simp [lockedLocalShutdown]
    | driverFinishShutdown h hst hwg =>
      simp [lockedFinishShutdown]
    | shutdownWGAdd h h' d e heq =>
      simp only [ShutdownWGAdd] at heq
      split at heq
      · simp only [GoResult.ok.injEq, Prod.mk.injEq] at heq
        obtain ⟨h1, _⟩ := heq
        subst h1
        exact le_refl _
      split at heq <;> simp only [GoResult.ok.injEq, Prod.mk.injEq] at heq <;>
          obtain ⟨h1, _⟩ := heq <;> subst h1 <;> simp
    | wgDone h hwg => simp

/-- C9 witness: the deferral invariant evaluated on the reachable fully
shut-down helper `demoDone`. -/
theorem c9_witness :
    0 ≤ demoDone.shutdownDeferCount ∧
    (0 < demoDone.shutdownDeferCount → demoDone.state < StateShuttingDown) ∧
    (StateShuttingDown ≤ demoDone.state →
        DeferShutdown demoDone = (demoDone, some "Shutdown already started; cannot defer")) ∧
    (Step .deferShutdown demoDone (DeferShutdown demoDone).1 →
        StateShuttingDown ≤ demoDone.state →
        (DeferShutdown demoDone).1.shutdownDeferCount ≤ demoDone.shutdownDeferCount) :=
  c9_deferral_invariant demoDone (DeferShutdown demoDone).1 .deferShutdown reach_demoDone

/-- C10: `SetIsActivated` returns an error iff the helper is not activated
and state is at least `StateShuttingDown`; when already activated it returns
nil and changes nothing; on success from a not-activated state below
`StateShuttingDown` it sets the activated flag, sets state to
`StateActivated`, and closes the activation-done signal. -/
theorem c10_set_is_activated (h : Helper) :
    (h.isActivated = true → SetIsActivated h = (h, none)) ∧
    (h.isActivated = false → StateShuttingDown ≤ h.state →
        SetIsActivated h = (h, some "Cannot activate; shutdown already initiated")) ∧
    (h.isActivated = false → h.state < StateShuttingDown →
        SetIsActivated h =
          ({ h with
              isActivated := true
              state := StateActivated
              activatingDoneClosed := true }, none)) ∧
    ((SetIsActivated h).2 ≠ none ↔ h.isActivated = false ∧ StateShuttingDown ≤ h.state) := by
  refine ⟨?_, ?_, ?_, ?_⟩
  · intro ha
    simp [SetIsActivated, ha]
  · intro ha hs
    simp only [StateShuttingDown] at hs
    simp [SetIsActivated, ha, hs]
  · intro ha hs
    simp only [StateShuttingDown] at hs
    simp [SetIsActivated, ha, Nat.not_le.mpr hs]
  · constructor
    · intro hne
      by_cases ha : h.isActivated = true
      · simp [SetIsActivated, ha] at hne
      · simp only [Bool.not_eq_true] at ha
        by_cases hs : 3 ≤ h.state
        · exact ⟨ha, by simpa using hs⟩
        · simp [SetIsActivated, ha, hs] at hne
    · intro hc
      have h1 := hc.1
      have h2 := hc.2
      simp only [StateShuttingDown] at h2
      simp [SetIsActivated, h1, h2]

/-- C10 witness: `SetIsActivated` evaluated on the reachable helper
`demoScheduled` (not activated, shutdown already started). -/
theorem c10_witness :
    SetIsActivated demoScheduled =
      (demoScheduled, some "Cannot activate; shutdown already initiated") :=
  (c10_set_is_activated demoScheduled).2.1 rfl (by decide)

/-- C1 counterexample: on the reachable helper `demoDone` (not activated,
shutdown fully complete with terminal error "e1"), `DoOnceActivate` with
`waitOnFail = true` returns the terminal error "e1", not the "cannot
activate" diagnostic — so the claim that the diagnostic is returned
regardless of `waitOnFail` is false. -/
theorem c1_counterexample :
    demoDone.isActivated = false ∧
    StateShuttingDown ≤ demoDone.state ∧
    Reach demoDone ∧
    DoOnceActivate demoDone none true = .ok (demoDone, some "e1") ∧
    some "e1" ≠ (some "Shutdown of object already started; cannot SetIsActivated" : GoErr) :=
  ⟨rfl, by decide, reach_demoDone, rfl, by decide⟩

/-- C1 (amended): when `DoOnceActivate` is called with the object not
activated and state at least `StateShuttingDown`, it returns the "cannot
activate" diagnostic when `waitOnFail` is false; when `waitOnFail` is true it
waits for shutdown to complete and returns the terminal error when that is
non-nil, falling back to the diagnostic only when the terminal error is
nil. -/
theorem c1_amended (h : Helper) (cb : Option OnceActivateCallback)
    (hact : h.isActivated = false) (hs : StateShuttingDown ≤ h.state) :
    (DoOnceActivate h cb false =
        .ok (h, some "Shutdown of object already started; cannot SetIsActivated")) ∧
    (h.shutdownDoneClosed = true → h.shutdownErr = none →
        DoOnceActivate h cb true =
          .ok (h, some "Shutdown of object already started; cannot SetIsActivated")) ∧
    (h.shutdownDoneClosed = true → h.shutdownErr ≠ none →
        DoOnceActivate h cb true = .ok (h, h.shutdownErr)) ∧
    (h.shutdownDoneClosed = false → DoOnceActivate h cb true = .blocked) := by
  simp only [StateShuttingDown] at hs
  have hne : h.state ≠ 1 := by omega
  refine ⟨?_, ?_, ?_, ?_⟩
  · simp [DoOnceActivate, hact, hne, hs]
  · intro hc hse
    simp [DoOnceActivate, hact, hne, hs, WaitShutdown, hc, hse]
  · intro hc hse
    simp [DoOnceActivate, hact, hne, hs, WaitShutdown, hc, hse]
  · intro hc
    simp [DoOnceActivate, hact, hne, hs, WaitShutdown, hc]

/-- C1 witness: the amended claim evaluated on `demoDone`, whose terminal
error is `some "e1"`. -/
theorem c1_witness :
    DoOnceActivate demoDone none true = .ok (demoDone, demoDone.shutdownErr) :=
  (c1_amended demoDone none rfl (by decide)).2.2.1 rfl (by decide)

/-- C2 counterexample: `SetIsActivated` on the freshly constructed (hence
reachable) helper `demoHelper` changes the state field from 0 (unactivated)
to 2 (activated) — a transition absent from the claimed transition list. -/
theorem c2_counterexample :
    Reach demoHelper ∧
    Step .setIsActivated demoHelper (SetIsActivated demoHelper).1 ∧
    demoHelper.state = 0 ∧
    (SetIsActivated demoHelper).1.state = 2 ∧
    (0, 2) ∉ claimedTransitions :=
  ⟨reach_demoHelper, Step.setIsActivated demoHelper, rfl, rfl, by decide⟩

/-- C2 (amended): every state change performed by a step from a reachable
helper state is one of the transitions 0→1, 0→2, 0→3, 1→2, 1→3, 2→3, 3→4,
4→5 — the claimed list extended with 0→2, the transition a direct
`SetIsActivated` performs on a helper that never began activating. -/
theorem c2_amended (op : Op) (h h' : Helper) (hr : Reach h) (hs : Step op h h')
    (hne : h.state ≠ h'.state) : (h.state, h'.state) ∈ amendedTransitions := by
  obtain ⟨i1, i2, i3, i4, i5, i6, i7⟩ := inv_reach hr
  cases hs with
  | setIsActivated h =>
    by_cases ha : h.isActivated = true
    · simp [SetIsActivated, ha] at hne
    · simp only [Bool.not_eq_true] at ha
      by_cases hgt : 3 ≤ h.state
      · simp [SetIsActivated, ha, hgt] at hne
      · have h2 : h.state ≠ 2 := fun hc => by
          rw [ha] at i2
          simpa using i2 (by simpa using hc)
        simp only [SetIsActivated, ha, Bool.false_eq_true, if_false, StateShuttingDown,
          if_neg hgt] at hne ⊢
        have : h.state = 0 ∨ h.state = 1 := by omega
        rcases this with h0 | h0 <;> rw [h0] <;> decide
  | deferShutdown h =>
    exfalso
    apply hne
    simp only [DeferShutdown]
    split <;> rfl
  | undeferShutdown h h' heq =>
    simp only [UndeferShutdown] at heq
    split at heq
    · simp at heq
    split at heq <;> simp only [GoResult.ok.injEq] at heq <;> subst heq
    · rename_i hcond
      have hlt : h.state < 3 := by simpa using hcond.2.2
      simp only [enter_state, StateShuttingDown]
      have : h.state = 0 ∨ h.state = 1 ∨ h.state = 2 := by omega
      rcases this with h0 | h0 | h0 <;> rw [h0] <;> decide
    · exact absurd rfl hne
  | startShutdown h h' e b heq =>
    simp only [StartShutdown] at heq
    split at heq
    · simp only [GoResult.ok.injEq, Prod.mk.injEq] at heq
      obtain ⟨h1, _⟩ := heq
      subst h1
      exact absurd rfl hne
    split at heq
    · simp at heq
    split at heq <;> simp only [GoResult.ok.injEq, Prod.mk.injEq] at heq <;>
        obtain ⟨h1, _⟩ := heq <;> subst h1
    · simp only [enter_state, StateShuttingDown] at *
      have h3 : h.state = 0 ∨ h.state = 1 ∨ h.state = 2 := by omega
      rcases h3 with h0 | h0 | h0 <;> rw [h0] <;> decide
    · exact absurd rfl hne
  | doOnceActivateBegin h hna hlt =>
    have h2 : h.state ≠ 2 := fun hc => by
      rw [hna] at i2
      simpa using i2 (by simpa using hc)
    simp only at hne ⊢
    simp only [StateShuttingDown] at hlt
    have h1 : h.state ≠ 1 := by
      intro hc
      apply hne
      rw [hc]
      rfl
    have h0 : h.state = 0 := by omega
    rw [h0]
    decide
  | setOnceShutdownHandler h f =>
    exfalso
    apply hne
    simp only [SetOnceShutdownHandler]
    split <;> rfl
  | driverLocalShutdown h hook hst hres =>
    rw [hst]
    simp [lockedLocalShutdown, amendedTransitions]
  | driverFinishShutdown h hst hwg =>
    rw [hst]
    simp [lockedFinishShutdown, amendedTransitions]
  | shutdownWGAdd h h' d e heq =>
    exfalso
    apply hne
    simp only [ShutdownWGAdd] at heq
    split at heq
    · simp only [GoResult.ok.injEq, Prod.mk.injEq] at heq
      obtain ⟨h1, _⟩ := heq
      subst h1
      rfl
    split at heq <;> simp only [GoResult.ok.injEq, Prod.mk.injEq] at heq <;>
        obtain ⟨h1, _⟩ := heq <;> subst h1 <;> rfl
  | wgDone h hwg =>
    exact absurd rfl hne

/-- C2 witness: the amended transition theorem evaluated on the concrete
first-`StartShutdown` step, which performs the transition 0→3. -/
theorem c2_witness : (demoHelper.state, demoScheduled.state) ∈ amendedTransitions :=
  c2_amended (.startShutdown (some "e1")) demoHelper demoScheduled reach_demoHelper
    demoStep1 (by decide)

/-- C3 counterexample: `NewHelperWithShutdownHandler` accepts an object with
no capabilities at all when an explicit shutdown handler is supplied — the
missing activate capability is not rejected at construction; the first
`DoOnceActivate` with a nil callback then aborts with the failed interface
type assertion. -/
theorem c3_counterexample :
    NewHelperWithShutdownHandler demoObjNoCaps (some demoHook) =
      .ok (newHelperRecord demoObjNoCaps (some demoHook)) ∧
    DoOnceActivate (newHelperRecord demoObjNoCaps (some demoHook)) none false =
      .fatal "interface conversion: obj is not HandleOnceActivator" :=
  ⟨rfl, rfl⟩

/-- C3 (amended): construction checks only the shutdown capability (it
rejects a nil shutdown handler combined with a missing
`HandleOnceShutdowner`); a missing activate capability passes construction
and is detected only when `DoOnceActivate` is invoked with a nil callback,
as a fatal type-assertion failure at that moment. -/
theorem c3_amended (obj : ManagedObj) (h : Helper) (sh : Option OnceShutdownHandler)
    (w : Bool) (hok : NewHelperWithShutdownHandler obj sh = .ok h)
    (hna : obj.handleOnceActivate = none) :
    DoOnceActivate h none w =
      .fatal "interface conversion: obj is not HandleOnceActivator" ∧
    (sh = none → obj.handleOnceShutdown ≠ none) := by
  have hfresh : h = newHelperRecord obj sh := by
    simp only [NewHelperWithShutdownHandler] at hok
    split at hok
    · simp at hok
    · simp only [GoResult.ok.injEq] at hok
      exact hok.symm
  have hcap : sh = none → obj.handleOnceShutdown ≠ none := by
    intro hshn hcn
    rw [hshn] at hok
    simp [NewHelperWithShutdownHandler, hcn] at hok
  subst hfresh
  refine ⟨?_, hcap⟩
  simp [DoOnceActivate, newHelperRecord, hna]

/-- C3 witness: the amended claim evaluated on an object providing only the
shutdown capability, constructed with a nil shutdown handler. -/
theorem c3_witness :
    DoOnceActivate (newHelperRecord demoObjOnlyShut none) none true =
      .fatal "interface conversion: obj is not HandleOnceActivator" ∧
    ((none : Option OnceShutdownHandler) = none →
        demoObjOnlyShut.handleOnceShutdown ≠ none) :=
  c3_amended demoObjOnlyShut (newHelperRecord demoObjOnlyShut none) none true rfl rfl

/-- C5: the shutdown driver invokes the resolved shutdown hook (explicit
callback, else the managed object's shutdown capability) on the current
terminal error; the first locked section stores the hook's return value as
the terminal error, sets state to `StateLocalShutdown` and closes the
local-shutdown-done signal; the final locked section — which runs only once
the termination wait-group has drained — sets state to `StateShutDown` and
closes the shutdown-done signal; and along any trace from an invariant state
the driver's hook section runs at most once, always from
`StateShuttingDown`. -/
theorem c5_shutdown_driver (h : Helper) (hook : OnceShutdownHandler)
    (hres : resolvedShutdownHook h = some hook) :
    asyncDoStartedShutdown h =
      .ok (lockedFinishShutdown (lockedLocalShutdown h (hook h.shutdownErr))) ∧
    (lockedLocalShutdown h (hook h.shutdownErr)).shutdownErr = hook h.shutdownErr ∧
    (lockedLocalShutdown h (hook h.shutdownErr)).state = StateLocalShutdown ∧
    (lockedLocalShutdown h (hook h.shutdownErr)).localShutdownDoneClosed = true ∧
    (lockedFinishShutdown (lockedLocalShutdown h (hook h.shutdownErr))).state =
      StateShutDown ∧
    (lockedFinishShutdown (lockedLocalShutdown h (hook h.shutdownErr))).shutdownDoneClosed =
      true ∧
    (lockedFinishShutdown (lockedLocalShutdown h (hook h.shutdownErr))).shutdownErr =
      hook h.shutdownErr ∧
    (∀ g g' : Helper, Step .driverLocalShutdown g g' → g.state = StateShuttingDown) ∧
    (∀ g g' : Helper, Step .driverFinishShutdown g g' → g.wgCount = 0) ∧
    (∀ (g g' : Helper) (ops : List Op), Inv g → Trace g ops g' →
        List.countP (fun op => isDriverLocal op) ops ≤ 1) := by
  refine ⟨?_, rfl, rfl, rfl, rfl, rfl, rfl, ?_, ?_, ?_⟩
  · simp [asyncDoStartedShutdown, hres]
  · exact fun g g' hstep => driver_local_state hstep
  · exact fun g g' hstep => driver_finish_wg hstep
  · exact fun g g' ops hi ht => trace_driver_once ht hi

/-- C5 witness: the driver theorem evaluated on the reachable helper
`demoScheduled` with its resolved hook `demoHook`. -/
theorem c5_witness :
    asyncDoStartedShutdown demoScheduled =
      .ok (lockedFinishShutdown (lockedLocalShutdown demoScheduled
        (demoHook demoScheduled.shutdownErr))) ∧
    (lockedFinishShutdown (lockedLocalShutdown demoScheduled
        (demoHook demoScheduled.shutdownErr))).state = StateShutDown :=
  ⟨(c5_shutdown_driver demoScheduled demoHook rfl).1,
   (c5_shutdown_driver demoScheduled demoHook rfl).2.2.2.2.1⟩

/-- C6: the first `StartShutdown e1` on a reachable, not-yet-scheduled helper
returns true, latches the scheduled flag, stores `e1` as the terminal error,
and enters `StateShuttingDown` exactly when the deferral count is zero
(otherwise the state is unchanged); any subsequent `StartShutdown e2`
returns false and leaves the helper unchanged, so the terminal error still
reflects `e1`. -/
theorem c6_start_shutdown (h h1 : Helper) (e1 e2 : GoErr) (b1 : Bool)
    (hr : Reach h) (hn : h.isScheduledShutdown = false)
    (hfirst : StartShutdown h e1 = .ok (h1, b1)) :
    b1 = true ∧
    h1.isScheduledShutdown = true ∧
    h1.shutdownErr = e1 ∧
    (h1.state = StateShuttingDown ↔ h.shutdownDeferCount = 0) ∧
    (h.shutdownDeferCount ≠ 0 → h1.state = h.state) ∧
    h1.isActivated = h.isActivated ∧
    h1.shutdownDeferCount = h.shutdownDeferCount ∧
    StartShutdown h1 e2 = .ok (h1, false) := by
  obtain ⟨i1, i2, i3, i4, i5, i6, i7⟩ := inv_reach hr
  have hlt : h.state < StateShuttingDown := by
    by_contra hc
    have hsch := i4 (Nat.le_of_not_lt hc)
    rw [hsch] at hn
    simp at hn
  simp only [StartShutdown, hn, Bool.false_eq_true, if_false,
    if_neg (Nat.not_le.mpr hlt)] at hfirst
  split at hfirst <;> simp only [GoResult.ok.injEq, Prod.mk.injEq] at hfirst <;>
      obtain ⟨hh, hb⟩ := hfirst <;> subst hh <;> subst hb
  · rename_i hz
    refine ⟨rfl, ?_, ?_, ?_, ?_, ?_, ?_, ?_⟩ <;> simp_all [StartShutdown]
  · rename_i hz
    refine ⟨rfl, ?_, ?_, ?_, ?_, ?_, ?_, ?_⟩ <;> simp_all [StartShutdown]
    omega

/-- C6 witness: the theorem evaluated on the concrete first call
`StartShutdown demoHelper (some "e1")` followed by a second call with
`some "e2"`. -/
theorem c6_witness :
    (true : Bool) = true ∧
    demoScheduled.isScheduledShutdown = true ∧
    demoScheduled.shutdownErr = some "e1" ∧
    (demoScheduled.state = StateShuttingDown ↔ demoHelper.shutdownDeferCount = 0) ∧
    (demoHelper.shutdownDeferCount ≠ 0 → demoScheduled.state = demoHelper.state) ∧
    demoScheduled.isActivated = demoHelper.isActivated ∧
    demoScheduled.shutdownDeferCount = demoHelper.shutdownDeferCount ∧
    StartShutdown demoScheduled (some "e2") = .ok (demoScheduled, false) :=
  c6_start_shutdown demoHelper demoScheduled (some "e1") (some "e2") true
    reach_demoHelper rfl startShutdown_demoHelper

end Asyncobj
